import Mathlib

/-!
Shallow embedding of the gesture-to-interaction mapping and particle physics
core of the christmas-magic repository (src/script.js, tree effect; the
starfield variant in src/unnamed/part_000 shares the same classifier,
smoother and inertia logic with different clamp bounds).

Numeric values are modelled as exact rationals for the gesture pipeline
(all of its arithmetic is +, -, *, /, abs and comparisons, except for
Euclidean distances, which are compared squared: for c >= 0,
Math.hypot(a, b) < c holds iff a^2 + b^2 < c^2, so the squared encoding
is equivalent and keeps every definition computable).  The particle
physics engine (updateParticlePhysics) genuinely rescales by a Euclidean
norm, so it is modelled over the reals with Real.sqrt.
-/

/- Batteries marks the rational-number operations irreducible, which blocks
kernel evaluation of concrete states by `decide`; restore the default
reducibility for this development (proof-irrelevant: it only lets `decide`
unfold them). -/
attribute [local semireducible] Rat.mul Rat.add Rat.sub Rat.inv

namespace ChristmasMagic

/-- One hand landmark as delivered by the detector: normalized screen
coordinates x, y plus a depth z (MediaPipe hand landmark). -/
structure Landmark where
  x : ℚ
  y : ℚ
  z : ℚ
  deriving DecidableEq

/-- A full 21-point landmark frame (index 0 = wrist, 4 = thumb tip,
8 = index tip, 9 = middle MCP, 20 = pinky tip, ...). -/
def LandmarkFrame : Type := Fin 21 → Landmark

/-- The discrete gesture labels returned by recognizeGesture. -/
inductive Gesture where
  | NONE
  | FIST
  | OPEN_PALM
  | PINCH
  | POINT
  | V_SIGN
  deriving DecidableEq

/-- Squared planar distance between two landmarks.  The source computes
Math.hypot(p.x - q.x, p.y - q.y); comparisons of that value against a
nonnegative constant c are encoded as comparisons of distSq against c^2. -/
def distSq (p q : Landmark) : ℚ :=
  (p.x - q.x)^2 + (p.y - q.y)^2

/-- isExtended(tipId, pipId) from recognizeGesture (script.js:1555):
lm[tipId].y < lm[pipId].y (screen y grows downward). -/
def isExtended (lm : LandmarkFrame) (tipId pipId : Fin 21) : Bool :=
  decide ((lm tipId).y < (lm pipId).y)

/-- recognizeGesture (script.js:1547-1591): a priority chain of tests,
first match wins.  The pinch test Math.hypot(...) < 0.06 is encoded
squared as distSq < (6/100)^2. -/
def recognizeGesture (lm : LandmarkFrame) : Gesture :=
  let indexExtended := isExtended lm 8 6
  let middleExtended := isExtended lm 12 10
  let ringExtended := isExtended lm 16 14
  let pinkyExtended := isExtended lm 20 18
  let pinchDistanceSq := distSq (lm 8) (lm 4)
  if pinchDistanceSq < (6/100)^2 then Gesture.PINCH
  else if !indexExtended && !middleExtended && !ringExtended && !pinkyExtended then Gesture.FIST
  else if indexExtended && middleExtended && ringExtended && pinkyExtended then Gesture.OPEN_PALM
  else if indexExtended && middleExtended && !ringExtended && !pinkyExtended then Gesture.V_SIGN
  else if indexExtended && !middleExtended && !ringExtended && !pinkyExtended then Gesture.POINT
  else Gesture.NONE

/-- getPalmCenter (script.js:1504-1513): midpoint of wrist (0) and
middle-finger MCP (9), x and y only. -/
def getPalmCenter (lm : LandmarkFrame) : ℚ × ℚ :=
  (((lm 0).x + (lm 9).x) / 2, ((lm 0).y + (lm 9).y) / 2)

end ChristmasMagic

namespace ChristmasMagic

/-- Claim C1: for every 21-point landmark frame in which the distance between
the index tip (landmark 8) and the thumb tip (landmark 4) is below 0.06
(stated squared: distSq < 0.06^2), recognizeGesture returns PINCH, regardless
of the extension state of any finger — the pinch test is the first test of
the priority chain. -/
theorem c1_pinch_priority (lm : LandmarkFrame)
    (h : distSq (lm 8) (lm 4) < (6/100)^2) :
    recognizeGesture lm = Gesture.PINCH := by
  unfold recognizeGesture
  simp [h]

/-- A concrete frame for the C1 witness: thumb tip (0.50, 0.50), index tip
(0.505, 0.505) as in the spec scenario, all other fingers extended (tips above
their PIP joints), so the OPEN_PALM predicate would also fire were it tested
first. -/
def pinchFrame : LandmarkFrame := fun i =>
  if i.val = 4 then ⟨1/2, 1/2, 0⟩
  else if i.val = 8 then ⟨101/200, 101/200, 0⟩
  else if i.val = 6 ∨ i.val = 10 ∨ i.val = 14 ∨ i.val = 18 then ⟨1/2, 7/10, 0⟩
  else ⟨1/2, 3/10, 0⟩

theorem c1_pinch_priority_witness :
    distSq (pinchFrame 8) (pinchFrame 4) < (6/100)^2 ∧
    recognizeGesture pinchFrame = Gesture.PINCH :=
  ⟨by decide, c1_pinch_priority pinchFrame (by decide)⟩

/-- Claim C10: the classifier ignores landmark depth — two frames that agree
on the x and y coordinate of every landmark (but may differ arbitrarily in z)
classify to the same gesture label. -/
theorem c10_depth_ignored (lm lm' : LandmarkFrame)
    (h : ∀ i : Fin 21, (lm i).x = (lm' i).x ∧ (lm i).y = (lm' i).y) :
    recognizeGesture lm = recognizeGesture lm' := by
  have hx : ∀ i : Fin 21, (lm i).x = (lm' i).x := fun i => (h i).1
  have hy : ∀ i : Fin 21, (lm i).y = (lm' i).y := fun i => (h i).2
  unfold recognizeGesture isExtended distSq
  rw [hx 8, hx 4, hy 8, hy 4, hy 6, hy 12, hy 10, hy 16, hy 14, hy 20, hy 18]

/-- Two concrete frames for the C10 witness: identical x/y, z differing at
every landmark. -/
def flatFrame : LandmarkFrame := fun i =>
  if i.val = 6 ∨ i.val = 10 ∨ i.val = 14 ∨ i.val = 18 then ⟨1/2, 7/10, 0⟩
  else ⟨3/5, 3/10, 0⟩

def deepFrame : LandmarkFrame := fun i =>
  if i.val = 6 ∨ i.val = 10 ∨ i.val = 14 ∨ i.val = 18 then ⟨1/2, 7/10, 9⟩
  else ⟨3/5, 3/10, -5⟩

theorem c10_depth_ignored_witness :
    (∀ i : Fin 21, (flatFrame i).x = (deepFrame i).x ∧
      (flatFrame i).y = (deepFrame i).y) ∧
    recognizeGesture flatFrame = recognizeGesture deepFrame :=
  ⟨by decide, c10_depth_ignored flatFrame deepFrame (by decide)⟩

/-- Math.max(lo, Math.min(hi, x)), the clamping idiom used throughout the
source. -/
def clamp (lo hi x : ℚ) : ℚ := max lo (min hi x)

/-- The mutable gesture-control state of script.js (module-level variables,
lines 86-103, plus the scene values the gesture handlers mutate: the group
rotation, the camera z position, and the mode flags).  `expandedPhoto`
abstracts the `expandedPhoto` object reference as a Bool (null or not);
`selectedPhoto` keeps the hovered photo index. -/
structure ControlState where
  lastGesture : Gesture
  lastHandPos : ℚ × ℚ
  smoothedPos : ℚ × ℚ
  lastHandSize : ℚ
  smoothedHandSize : ℚ
  handSizeBaseline : ℚ
  handSizeCalibrated : Bool
  gestureStartTime : ℚ
  isGestureActive : Bool
  autoRotate : Bool
  velRotX : ℚ
  velRotY : ℚ
  velZoom : ℚ
  isFistShape : Bool
  isExploded : Bool
  rotX : ℚ
  rotY : ℚ
  cameraZ : ℚ
  expandedPhoto : Bool
  selectedPhoto : Option Nat
  cursorHidden : Bool
  cursorActive : Bool
  deriving DecidableEq

/-- Per-frame external inputs of the gesture handlers: the raycast result of
checkPhotoHover (which photo, if any, the cursor is over — the raycaster and
camera are outside this core) and the current performance.now() clock. -/
structure Env where
  hover : Option Nat
  now : ℚ
  deriving DecidableEq

/-- The raycast outcome of checkPhotoHover (script.js:980-1009): a photo is
reported (and remembered in selectedPhoto) only when the ray hits one and no
photo is currently expanded; otherwise selectedPhoto is cleared. -/
def hoverResult (env : Env) (s : ControlState) : Option Nat :=
  if s.expandedPhoto = false then env.hover else none

/-- checkPhotoHover (script.js:980-1009): returns the hovered photo and the
state with selectedPhoto updated (border-highlight changes are visual only). -/
def checkPhotoHover (env : Env) (s : ControlState) : Option Nat × ControlState :=
  (hoverResult env s, { s with selectedPhoto := hoverResult env s })

/-- explodeParticles (script.js:394-441), restricted to the control state: it
sets isExploded and disables auto-rotate (the randomized particle and photo
velocities live in the physics arrays, outside this state). -/
def explodeParticles (s : ControlState) : ControlState :=
  { s with isExploded := true, autoRotate := false }

/-- gatherParticles (script.js:443-469), restricted to the control state: it
clears isExploded (star/photo angular-velocity resets are outside this
state). -/
def gatherParticles (s : ControlState) : ControlState :=
  { s with isExploded := false }

/-- expandPhoto (script.js:1012-1063), restricted to the control state: a
no-op when a photo is already expanded, otherwise records the expansion and
disables auto-rotate (the tween itself is visual only). -/
def expandPhoto (s : ControlState) : ControlState :=
  if s.expandedPhoto then s
  else { s with expandedPhoto := true, autoRotate := false }

/-- closeExpandedPhoto (script.js:1066-1114), restricted to the control
state: it only starts an asynchronous closing animation; expandedPhoto is
cleared (and autoRotate restored) when that animation finishes ~300 ms later,
so within the frame that calls it the control state is unchanged. -/
def closeExpandedPhoto (s : ControlState) : ControlState := s

/-- The final else branch of processContinuousGesture (script.js:1715-1730):
reached for NONE and for V_SIGN frames whose previous gesture was already
V_SIGN.  Clears the cursor highlight, the dwell timer and the active-gesture
flag; on NONE it additionally restores the tree shape and re-enables
auto-rotate when no photo is expanded. -/
def noGestureBranch (gesture : Gesture) (s : ControlState) : ControlState :=
  let s1 := { s with cursorActive := false, gestureStartTime := 0,
                     isGestureActive := false }
  if gesture = Gesture.NONE then
    let s2 := if s1.isFistShape then { s1 with isFistShape := false } else s1
    if s2.expandedPhoto = false then { s2 with autoRotate := true } else s2
  else s1

/-- processContinuousGesture (script.js:1593-1731).  `currentPos` is the
smoothed pointer position; deltas are taken against lastHandPos.  The
screen-coordinate cursor math and console logging are visual only and
omitted; every state mutation of the source is reproduced. -/
def processContinuousGesture (gesture : Gesture) (currentPos : ℚ × ℚ)
    (env : Env) (s0 : ControlState) : ControlState :=
  let deltaX := currentPos.1 - s0.lastHandPos.1
  let deltaY := currentPos.2 - s0.lastHandPos.2
  let s := if gesture ≠ Gesture.POINT then (checkPhotoHover env s0).2 else s0
  match gesture with
  | Gesture.OPEN_PALM =>
    if s.expandedPhoto then closeExpandedPhoto s
    else
      let s1 := if s.isFistShape then { s with isFistShape := false } else s
      let s2 := { s1 with autoRotate := false, isGestureActive := true,
                          cursorActive := true }
      let rotDeltaY := deltaX * 5
      let rotDeltaX := deltaY * 3
      { s2 with rotY := s2.rotY + rotDeltaY,
                rotX := clamp (-(1/2)) (1/2) (s2.rotX + rotDeltaX),
                velRotX := rotDeltaX, velRotY := rotDeltaY }
  | Gesture.POINT =>
    let s1 := { s with cursorActive := true }
    let hovered := (checkPhotoHover env s1).1
    let s2 := (checkPhotoHover env s1).2
    match hovered, s2.expandedPhoto with
    | some _, false =>
      if s2.gestureStartTime = 0 then { s2 with gestureStartTime := env.now }
      else if 500 < env.now - s2.gestureStartTime then
        { expandPhoto s2 with gestureStartTime := 0 }
      else s2
    | _, _ => s2
  | Gesture.PINCH =>
    if s.expandedPhoto then s
    else
      let s1 := { s with autoRotate := false, isGestureActive := true,
                         cursorActive := true }
      let zoomDelta := -deltaY * 10
      { s1 with cameraZ := clamp 3 10 (s1.cameraZ + zoomDelta),
                velZoom := zoomDelta }
  | Gesture.FIST =>
    if s.expandedPhoto then
      if s.lastGesture ≠ Gesture.FIST then closeExpandedPhoto s else s
    else if s.isExploded then
      if s.lastGesture ≠ Gesture.FIST then gatherParticles s else s
    else
      let s1 := if s.isFistShape = false then
          { s with isFistShape := true, autoRotate := false } else s
      let s2 := { s1 with cursorActive := true }
      let rotDeltaY := deltaX * 5
      let rotDeltaX := deltaY * 3
      { s2 with rotY := s2.rotY + rotDeltaY,
                rotX := clamp (-(1/2)) (1/2) (s2.rotX + rotDeltaX),
                velRotX := rotDeltaX, velRotY := rotDeltaY }
  | Gesture.V_SIGN =>
    if s.lastGesture ≠ Gesture.V_SIGN then
      if s.expandedPhoto = false then
        if s.isExploded then gatherParticles s else explodeParticles s
      else s
    else noGestureBranch gesture s
  | Gesture.NONE => noGestureBranch gesture s

/-- applyHandDistanceZoom (script.js:1476-1502): eases the camera toward a
target z derived from the smoothed-size / baseline ratio (initialZ = 6,
sensitivity = 3.0, bounds [3, 10]); a no-op until calibration. -/
def applyHandDistanceZoom (s : ControlState) : ControlState :=
  if s.handSizeCalibrated = false then s
  else
    let sizeRatio := s.smoothedHandSize / s.handSizeBaseline
    let targetZ := 6 - (sizeRatio - 1) * 3
    let newZ := s.cameraZ + (targetZ - s.cameraZ) * (1/10)
    { s with cameraZ := clamp 3 10 newZ }

/-- handleGestures (script.js:1424-1473), for a detected 21-point frame.
`currentHandSize` stands for getHandSize(landmarks) (script.js:1516-1545),
an average of three planar Euclidean distances: its square roots have no
exact rational value, so the measured size enters the model as an input;
everything downstream of it is embedded exactly.  Steps, in source order:
pointer smoothing (0.7/0.3, x mirrored), hand-size smoothing (0.8/0.2),
one-time baseline calibration, classification, distance zoom while
OPEN_PALM with no expanded photo, the continuous-gesture processing, and
the last-frame bookkeeping. -/
def handleGestures (lm : LandmarkFrame) (currentHandSize : ℚ) (env : Env)
    (s0 : ControlState) : ControlState :=
  let palmCenter := getPalmCenter lm
  let rawX := 1 - palmCenter.1
  let rawY := palmCenter.2
  let s1 := { s0 with
    smoothedPos := (s0.smoothedPos.1 * (7/10) + rawX * (3/10),
                    s0.smoothedPos.2 * (7/10) + rawY * (3/10)),
    cursorHidden := false }
  let s2 := { s1 with
    smoothedHandSize := s1.smoothedHandSize * (8/10) + currentHandSize * (2/10) }
  let s3 := if s2.handSizeCalibrated = false then
      { s2 with handSizeBaseline := currentHandSize,
                smoothedHandSize := currentHandSize,
                handSizeCalibrated := true }
    else s2
  let gesture := recognizeGesture lm
  let s4 := if gesture = Gesture.OPEN_PALM ∧ s3.expandedPhoto = false then
      applyHandDistanceZoom s3
    else s3
  let s5 := processContinuousGesture gesture s4.smoothedPos env s4
  { s5 with lastHandPos := s5.smoothedPos, lastHandSize := currentHandSize,
            lastGesture := gesture }

/-- The no-hand branch of onResults (script.js:1411-1415): the cursor is
hidden, the active-gesture flag cleared and auto-rotate re-enabled.  Nothing
else — in particular handSizeCalibrated is not touched. -/
def noHandStep (s : ControlState) : ControlState :=
  { s with cursorHidden := true, isGestureActive := false, autoRotate := true }

/-- One detected frame of the gesture pipeline: handleGestures applied to the
classifier result, folded over a list of per-frame inputs (frame, measured
hand size, external environment). -/
def runDetectedFrames (inputs : List (LandmarkFrame × ℚ × Env))
    (s : ControlState) : ControlState :=
  inputs.foldl (fun st i => handleGestures i.1 i.2.1 i.2.2 st) s

/-- The module-level initial control state of script.js (lines 86-103 and
the camera initialZ of 6). -/
def initialState : ControlState where
  lastGesture := Gesture.NONE
  lastHandPos := (1/2, 1/2)
  smoothedPos := (1/2, 1/2)
  lastHandSize := 0
  smoothedHandSize := 0
  handSizeBaseline := 0
  handSizeCalibrated := false
  gestureStartTime := 0
  isGestureActive := false
  autoRotate := true
  velRotX := 0
  velRotY := 0
  velZoom := 0
  isFistShape := false
  isExploded := false
  rotX := 0
  rotY := 0
  cameraZ := 6
  expandedPhoto := false
  selectedPhoto := none
  cursorHidden := true
  cursorActive := false

/-- A frame classifying as V_SIGN: index and middle tips above their PIP
joints, ring and pinky tips below theirs, thumb far from the index tip. -/
def vSignFrame : LandmarkFrame := fun i =>
  if i.val = 8 ∨ i.val = 12 then ⟨1/2, 2/10, 0⟩
  else if i.val = 6 ∨ i.val = 10 then ⟨1/2, 4/10, 0⟩
  else if i.val = 16 ∨ i.val = 20 then ⟨1/2, 8/10, 0⟩
  else if i.val = 14 ∨ i.val = 18 then ⟨1/2, 6/10, 0⟩
  else if i.val = 4 then ⟨8/10, 8/10, 0⟩
  else ⟨1/2, 1/2, 0⟩

/-- A default environment: nothing hovered, clock at 0. -/
def env0 : Env := ⟨none, 0⟩

lemma applyHandDistanceZoom_handSize (s : ControlState) :
    (applyHandDistanceZoom s).smoothedHandSize = s.smoothedHandSize ∧
    (applyHandDistanceZoom s).handSizeBaseline = s.handSizeBaseline ∧
    (applyHandDistanceZoom s).handSizeCalibrated = s.handSizeCalibrated ∧
    (applyHandDistanceZoom s).isExploded = s.isExploded ∧
    (applyHandDistanceZoom s).lastGesture = s.lastGesture ∧
    (applyHandDistanceZoom s).expandedPhoto = s.expandedPhoto := by
  unfold applyHandDistanceZoom
  split <;> simp

lemma processContinuousGesture_handSize (g : Gesture) (p : ℚ × ℚ) (env : Env)
    (s : ControlState) :
    (processContinuousGesture g p env s).smoothedHandSize = s.smoothedHandSize ∧
    (processContinuousGesture g p env s).handSizeBaseline = s.handSizeBaseline ∧
    (processContinuousGesture g p env s).handSizeCalibrated = s.handSizeCalibrated := by
  cases g <;>
    simp only [processContinuousGesture, checkPhotoHover, hoverResult,
      noGestureBranch, explodeParticles, gatherParticles, expandPhoto,
      closeExpandedPhoto] <;>
    (repeat' split) <;> simp_all

lemma zoom_smoothedHandSize (s : ControlState) :
    (applyHandDistanceZoom s).smoothedHandSize = s.smoothedHandSize :=
  (applyHandDistanceZoom_handSize s).1

lemma zoom_handSizeBaseline (s : ControlState) :
    (applyHandDistanceZoom s).handSizeBaseline = s.handSizeBaseline :=
  (applyHandDistanceZoom_handSize s).2.1

lemma zoom_handSizeCalibrated (s : ControlState) :
    (applyHandDistanceZoom s).handSizeCalibrated = s.handSizeCalibrated :=
  (applyHandDistanceZoom_handSize s).2.2.1

lemma zoom_isExploded (s : ControlState) :
    (applyHandDistanceZoom s).isExploded = s.isExploded :=
  (applyHandDistanceZoom_handSize s).2.2.2.1

lemma zoom_lastGesture (s : ControlState) :
    (applyHandDistanceZoom s).lastGesture = s.lastGesture :=
  (applyHandDistanceZoom_handSize s).2.2.2.2.1

lemma zoom_expandedPhoto (s : ControlState) :
    (applyHandDistanceZoom s).expandedPhoto = s.expandedPhoto :=
  (applyHandDistanceZoom_handSize s).2.2.2.2.2

lemma pcg_smoothedHandSize (g : Gesture) (p : ℚ × ℚ) (env : Env)
    (s : ControlState) :
    (processContinuousGesture g p env s).smoothedHandSize = s.smoothedHandSize :=
  (processContinuousGesture_handSize g p env s).1

lemma pcg_handSizeBaseline (g : Gesture) (p : ℚ × ℚ) (env : Env)
    (s : ControlState) :
    (processContinuousGesture g p env s).handSizeBaseline = s.handSizeBaseline :=
  (processContinuousGesture_handSize g p env s).2.1

lemma pcg_handSizeCalibrated (g : Gesture) (p : ℚ × ℚ) (env : Env)
    (s : ControlState) :
    (processContinuousGesture g p env s).handSizeCalibrated = s.handSizeCalibrated :=
  (processContinuousGesture_handSize g p env s).2.2

lemma handleGestures_handSize (lm : LandmarkFrame) (h : ℚ) (env : Env)
    (s : ControlState) (hcal : s.handSizeCalibrated = true) :
    (handleGestures lm h env s).smoothedHandSize
        = s.smoothedHandSize * (8/10) + h * (2/10) ∧
    (handleGestures lm h env s).handSizeBaseline = s.handSizeBaseline ∧
    (handleGestures lm h env s).handSizeCalibrated = true := by
  unfold handleGestures
  simp [hcal, pcg_smoothedHandSize, pcg_handSizeBaseline, pcg_handSizeCalibrated,
    apply_ite ControlState.smoothedHandSize, apply_ite ControlState.handSizeBaseline,
    apply_ite ControlState.handSizeCalibrated, zoom_smoothedHandSize,
    zoom_handSizeBaseline, zoom_handSizeCalibrated]

/-- Claim C6: on a detected frame with the calibrated flag false, handleGestures
sets baseline and smoothed hand size to the measured size exactly (the 0.8/0.2
filter of that frame is overwritten) and raises the calibrated flag; on every
subsequent detected frame (calibrated flag true) the smoothed size follows the
0.8/0.2 filter and the baseline is untouched. -/
theorem c6_calibration_first_frame (s : ControlState) (lm : LandmarkFrame)
    (h : ℚ) (env : Env) (hcal : s.handSizeCalibrated = false) :
    (handleGestures lm h env s).handSizeBaseline = h ∧
    (handleGestures lm h env s).smoothedHandSize = h ∧
    (handleGestures lm h env s).handSizeCalibrated = true ∧
    (∀ t : ControlState, t.handSizeCalibrated = true → ∀ lm2 h2 env2,
      (handleGestures lm2 h2 env2 t).smoothedHandSize
          = t.smoothedHandSize * (8/10) + h2 * (2/10) ∧
      (handleGestures lm2 h2 env2 t).handSizeBaseline = t.handSizeBaseline) := by
  refine ⟨?_, ?_, ?_, ?_⟩
  · unfold handleGestures
    simp [hcal, pcg_handSizeBaseline, apply_ite ControlState.handSizeBaseline,
      zoom_handSizeBaseline]
  · unfold handleGestures
    simp [hcal, pcg_smoothedHandSize, apply_ite ControlState.smoothedHandSize,
      zoom_smoothedHandSize]
  · unfold handleGestures
    simp [hcal, pcg_handSizeCalibrated, apply_ite ControlState.handSizeCalibrated,
      zoom_handSizeCalibrated]
  · intro t ht lm2 h2 env2
    exact ⟨(handleGestures_handSize lm2 h2 env2 t ht).1,
           (handleGestures_handSize lm2 h2 env2 t ht).2.1⟩

theorem c6_calibration_first_frame_witness :
    initialState.handSizeCalibrated = false ∧
    (handleGestures vSignFrame (3/10) env0 initialState).handSizeBaseline = 3/10 ∧
    (handleGestures vSignFrame (3/10) env0 initialState).smoothedHandSize = 3/10 ∧
    (handleGestures vSignFrame (3/10) env0 initialState).handSizeCalibrated = true :=
  ⟨rfl,
   (c6_calibration_first_frame initialState vSignFrame (3/10) env0 rfl).1,
   (c6_calibration_first_frame initialState vSignFrame (3/10) env0 rfl).2.1,
   (c6_calibration_first_frame initialState vSignFrame (3/10) env0 rfl).2.2.1⟩

/-- A calibrated mid-session state used for the C7 counterexample: baseline
0.25, calibrated. -/
def calibState : ControlState :=
  { initialState with handSizeCalibrated := true, handSizeBaseline := 1/4,
                      smoothedHandSize := 1/4 }

/-- Claim C7 counterexample: after a frame with no hand detected, the
calibrated flag is still true (onResults never resets it), and the next
detected frame with measured size 0.30 keeps the old baseline 0.25 rather
than reassigning it to 0.30 — refuting the claimed reset-on-loss. -/
theorem c7_counterexample :
    (noHandStep calibState).handSizeCalibrated = true ∧
    (handleGestures vSignFrame (3/10) env0 (noHandStep calibState)).handSizeBaseline
        = 1/4 ∧
    (1/4 : ℚ) ≠ 3/10 := by
  refine ⟨rfl, ?_, by decide⟩
  decide

/-- Claim C7 amended: while no hand is detected the calibrated flag is NOT
reset — noHandStep leaves it untouched — so once calibration has happened the
baseline persists across any detection gap: the next detected frame leaves
the baseline unchanged instead of recalibrating. -/
theorem c7_no_recalibration (s : ControlState)
    (hcal : s.handSizeCalibrated = true) :
    (noHandStep s).handSizeCalibrated = true ∧
    (∀ lm h env,
      (handleGestures lm h env (noHandStep s)).handSizeBaseline
          = s.handSizeBaseline ∧
      (handleGestures lm h env (noHandStep s)).handSizeCalibrated = true) := by
  constructor
  · simp [noHandStep, hcal]
  · intro lm h env
    have hc : (noHandStep s).handSizeCalibrated = true := by simp [noHandStep, hcal]
    have base : (noHandStep s).handSizeBaseline = s.handSizeBaseline := by
      simp [noHandStep]
    obtain ⟨-, h2, h3⟩ := handleGestures_handSize lm h env (noHandStep s) hc
    exact ⟨by rw [h2, base], h3⟩

theorem c7_no_recalibration_witness :
    (noHandStep calibState).handSizeCalibrated = true ∧
    (handleGestures vSignFrame (3/10) env0 (noHandStep calibState)).handSizeBaseline
        = calibState.handSizeBaseline :=
  ⟨(c7_no_recalibration calibState rfl).1,
   ((c7_no_recalibration calibState rfl).2 vSignFrame (3/10) env0).1⟩

/-- Claim C9: with OPEN_PALM held and the smoothed pointer equal to the
previous frame's position (deltaX = deltaY = 0), one step of the
gesture-to-control mapper leaves the group rotation unchanged, for any
starting x rotation within the clamp bounds [-0.5, 0.5]. -/
theorem c9_open_palm_idempotent (s : ControlState) (env : Env)
    (h1 : -(1/2) ≤ s.rotX) (h2 : s.rotX ≤ 1/2) :
    (processContinuousGesture Gesture.OPEN_PALM s.lastHandPos env s).rotX = s.rotX ∧
    (processContinuousGesture Gesture.OPEN_PALM s.lastHandPos env s).rotY = s.rotY := by
  unfold processContinuousGesture
  simp [checkPhotoHover, hoverResult, closeExpandedPhoto, sub_self,
    apply_ite ControlState.rotX, apply_ite ControlState.rotY, clamp]
  intro _
  have h2' : s.rotX ≤ (2:ℚ)⁻¹ := by rw [inv_eq_one_div]; exact h2
  have h1' : -(2:ℚ)⁻¹ ≤ s.rotX := by rw [inv_eq_one_div]; exact h1
  rw [min_eq_right h2', max_eq_right h1']

theorem c9_open_palm_idempotent_witness :
    -(1/2) ≤ initialState.rotX ∧ initialState.rotX ≤ 1/2 ∧
    (processContinuousGesture Gesture.OPEN_PALM initialState.lastHandPos env0
      initialState).rotX = initialState.rotX ∧
    (processContinuousGesture Gesture.OPEN_PALM initialState.lastHandPos env0
      initialState).rotY = initialState.rotY :=
  ⟨by decide, by decide,
   (c9_open_palm_idempotent initialState env0 (by decide) (by decide)).1,
   (c9_open_palm_idempotent initialState env0 (by decide) (by decide)).2⟩

lemma pcg_vsign_entry (p : ℚ × ℚ) (env : Env) (s : ControlState)
    (hlast : s.lastGesture ≠ Gesture.V_SIGN) (hexp : s.expandedPhoto = false) :
    (processContinuousGesture Gesture.V_SIGN p env s).isExploded = !s.isExploded ∧
    (processContinuousGesture Gesture.V_SIGN p env s).expandedPhoto = false := by
  unfold processContinuousGesture
  cases hE : s.isExploded <;>
    simp [checkPhotoHover, hoverResult, explodeParticles, gatherParticles,
      hlast, hexp, hE]

lemma pcg_vsign_held (p : ℚ × ℚ) (env : Env) (s : ControlState)
    (hlast : s.lastGesture = Gesture.V_SIGN) :
    (processContinuousGesture Gesture.V_SIGN p env s).isExploded = s.isExploded ∧
    (processContinuousGesture Gesture.V_SIGN p env s).expandedPhoto
        = s.expandedPhoto := by
  unfold processContinuousGesture
  simp only [checkPhotoHover, hoverResult, noGestureBranch]
  simp [hlast, apply_ite ControlState.isExploded, apply_ite ControlState.expandedPhoto]

lemma pcg_lastGesture (g : Gesture) (p : ℚ × ℚ) (env : Env) (s : ControlState) :
    (processContinuousGesture g p env s).lastGesture = s.lastGesture := by
  cases g <;>
    simp only [processContinuousGesture, checkPhotoHover, hoverResult,
      noGestureBranch, explodeParticles, gatherParticles, expandPhoto,
      closeExpandedPhoto] <;>
    (repeat' split) <;> simp_all

lemma handleGestures_vsign_entry (lm : LandmarkFrame) (h : ℚ) (env : Env)
    (s : ControlState) (hg : recognizeGesture lm = Gesture.V_SIGN)
    (hlast : s.lastGesture ≠ Gesture.V_SIGN) (hexp : s.expandedPhoto = false) :
    (handleGestures lm h env s).isExploded = !s.isExploded ∧
    (handleGestures lm h env s).lastGesture = Gesture.V_SIGN ∧
    (handleGestures lm h env s).expandedPhoto = false := by
  unfold handleGestures
  rw [hg]
  refine ⟨?_, ?_, ?_⟩ <;>
    simp [apply_ite ControlState.isExploded, apply_ite ControlState.expandedPhoto,
      apply_ite ControlState.lastGesture, zoom_isExploded, zoom_expandedPhoto,
      zoom_lastGesture, pcg_vsign_entry, pcg_lastGesture, hlast, hexp]

lemma handleGestures_vsign_held (lm : LandmarkFrame) (h : ℚ) (env : Env)
    (s : ControlState) (hg : recognizeGesture lm = Gesture.V_SIGN)
    (hlast : s.lastGesture = Gesture.V_SIGN) :
    (handleGestures lm h env s).isExploded = s.isExploded ∧
    (handleGestures lm h env s).lastGesture = Gesture.V_SIGN ∧
    (handleGestures lm h env s).expandedPhoto = s.expandedPhoto := by
  unfold handleGestures
  rw [hg]
  refine ⟨?_, ?_, ?_⟩ <;>
    simp [apply_ite ControlState.isExploded, apply_ite ControlState.expandedPhoto,
      apply_ite ControlState.lastGesture, zoom_isExploded, zoom_expandedPhoto,
      zoom_lastGesture, pcg_vsign_held, pcg_lastGesture, hlast]

lemma runDetectedFrames_vsign_held (inputs : List (LandmarkFrame × ℚ × Env))
    (s : ControlState)
    (hg : ∀ i ∈ inputs, recognizeGesture i.1 = Gesture.V_SIGN)
    (hlast : s.lastGesture = Gesture.V_SIGN) :
    (runDetectedFrames inputs s).isExploded = s.isExploded := by
  induction inputs generalizing s with
  | nil => rfl
  | cons a l ih =>
    have ha := hg a (List.mem_cons_self a l)
    obtain ⟨e1, e2, -⟩ := handleGestures_vsign_held a.1 a.2.1 a.2.2 s ha hlast
    have : runDetectedFrames (a :: l) s
        = runDetectedFrames l (handleGestures a.1 a.2.1 a.2.2 s) := rfl
    rw [this, ih _ (fun i hi => hg i (List.mem_cons_of_mem a hi)) e2, e1]

/-- Claim C2 counterexample: with a photo expanded (modal overlay active), a
run of V_SIGN frames entered from lastGesture = NONE toggles the
formation/exploded flag zero times, not exactly once: the V_SIGN entry branch
is guarded by `if (!expandedPhoto)` (script.js:1705). -/
theorem c2_vsign_toggle_counterexample :
    recognizeGesture vSignFrame = Gesture.V_SIGN ∧
    ({ initialState with expandedPhoto := true } : ControlState).lastGesture
        ≠ Gesture.V_SIGN ∧
    (runDetectedFrames [(vSignFrame, 3/10, env0)]
        { initialState with expandedPhoto := true }).isExploded
      = ({ initialState with expandedPhoto := true } : ControlState).isExploded := by
  refine ⟨by decide, by decide, ?_⟩
  decide

/-- Claim C2 amended: provided no photo is expanded, a run of n >= 1
consecutive detected frames classifying as V_SIGN, entered with the previous
gesture not V_SIGN, toggles the exploded-mode flag exactly once — after the
whole run the flag is the negation of its initial value, toggled on entry and
ignored while held. -/
theorem c2_vsign_toggles_once (inputs : List (LandmarkFrame × ℚ × Env))
    (s : ControlState)
    (hg : ∀ i ∈ inputs, recognizeGesture i.1 = Gesture.V_SIGN)
    (hlast : s.lastGesture ≠ Gesture.V_SIGN) (hexp : s.expandedPhoto = false)
    (hne : inputs ≠ []) :
    (runDetectedFrames inputs s).isExploded = !s.isExploded := by
  cases inputs with
  | nil => exact absurd rfl hne
  | cons a l =>
    have ha := hg a (List.mem_cons_self a l)
    obtain ⟨e1, e2, -⟩ := handleGestures_vsign_entry a.1 a.2.1 a.2.2 s ha hlast hexp
    have hrun : runDetectedFrames (a :: l) s
        = runDetectedFrames l (handleGestures a.1 a.2.1 a.2.2 s) := rfl
    rw [hrun,
      runDetectedFrames_vsign_held l _ (fun i hi => hg i (List.mem_cons_of_mem a hi)) e2,
      e1]

theorem c2_vsign_toggles_once_witness :
    (runDetectedFrames
        [(vSignFrame, 3/10, env0), (vSignFrame, 3/10, env0), (vSignFrame, 3/10, env0)]
        initialState).isExploded = !initialState.isExploded :=
  c2_vsign_toggles_once _ initialState (by decide) (by decide) rfl
    (List.cons_ne_nil _ _)

/-- applyGestureInertia (script.js:1344-1367): on a frame with no active
gesture, no expanded photo and not exploded, the rotation velocity is applied
and decayed by 0.95 while either component exceeds 0.0001 in magnitude (the
x rotation re-clamped to [-0.5, 0.5]), and the zoom velocity is applied to
the camera (clamped to [3, 10]) and decayed by 0.92 while it exceeds 0.001
in magnitude. -/
def applyGestureInertia (s : ControlState) : ControlState :=
  if s.isGestureActive = false ∧ s.expandedPhoto = false ∧ s.isExploded = false then
    let s1 :=
      if 1/10000 < |s.velRotX| ∨ 1/10000 < |s.velRotY| then
        { s with rotX := clamp (-(1/2)) (1/2) (s.rotX + s.velRotX),
                 rotY := s.rotY + s.velRotY,
                 velRotX := s.velRotX * (95/100),
                 velRotY := s.velRotY * (95/100) }
      else s
    if 1/1000 < |s1.velZoom| then
      { s1 with cameraZ := clamp 3 10 (s1.cameraZ + s1.velZoom),
                velZoom := s1.velZoom * (92/100) }
    else s1
  else s

/-- An inactive state whose rotation-velocity magnitude sits exactly at the
0.0001 cutoff. -/
def boundaryState : ControlState := { initialState with velRotX := 1/10000 }

/-- Claim C3 counterexample: with rotation velocity exactly at the cutoff
0.0001 (magnitude "at the cutoff", which the claim places in the decaying
regime), one inactive inertia frame leaves the velocity at 0.0001 instead of
decaying it to 0.0001 * 0.95: the source tests strictly Math.abs(v) > 0.0001. -/
theorem c3_counterexample :
    |boundaryState.velRotX| = 1/10000 ∧
    boundaryState.isGestureActive = false ∧
    boundaryState.expandedPhoto = false ∧
    boundaryState.isExploded = false ∧
    (applyGestureInertia boundaryState).velRotX = 1/10000 ∧
    (1/10000 : ℚ) ≠ 1/10000 * (95/100) := by
  decide

lemma inertia_flags (s : ControlState) :
    (applyGestureInertia s).isGestureActive = s.isGestureActive ∧
    (applyGestureInertia s).expandedPhoto = s.expandedPhoto ∧
    (applyGestureInertia s).isExploded = s.isExploded := by
  unfold applyGestureInertia
  split_ifs <;>
    simp_all [apply_ite ControlState.isGestureActive,
      apply_ite ControlState.expandedPhoto, apply_ite ControlState.isExploded]

lemma inertia_rot_decay (s : ControlState) (hA : s.isGestureActive = false)
    (hB : s.expandedPhoto = false) (hC : s.isExploded = false)
    (hcond : 1/10000 < |s.velRotX| ∨ 1/10000 < |s.velRotY|) :
    (applyGestureInertia s).velRotX = s.velRotX * (95/100) ∧
    (applyGestureInertia s).velRotY = s.velRotY * (95/100) := by
  unfold applyGestureInertia
  simp only [hA, hB, hC]
  split_ifs <;>
    simp_all [apply_ite ControlState.velRotX, apply_ite ControlState.velRotY]

lemma inertia_rot_stop (s : ControlState) (hA : s.isGestureActive = false)
    (hB : s.expandedPhoto = false) (hC : s.isExploded = false)
    (hstopX : |s.velRotX| ≤ 1/10000) (hstopY : |s.velRotY| ≤ 1/10000) :
    (applyGestureInertia s).velRotX = s.velRotX ∧
    (applyGestureInertia s).velRotY = s.velRotY ∧
    (applyGestureInertia s).rotX = s.rotX ∧
    (applyGestureInertia s).rotY = s.rotY := by
  unfold applyGestureInertia
  simp only [hA, hB, hC]
  have hcond : ¬(1/10000 < |s.velRotX| ∨ 1/10000 < |s.velRotY|) :=
    not_or.mpr ⟨not_lt.mpr hstopX, not_lt.mpr hstopY⟩
  split_ifs <;>
    simp_all [apply_ite ControlState.velRotX, apply_ite ControlState.velRotY,
      apply_ite ControlState.rotX, apply_ite ControlState.rotY]

lemma inertia_zoom_decay (s : ControlState) (hA : s.isGestureActive = false)
    (hB : s.expandedPhoto = false) (hC : s.isExploded = false)
    (hcond : 1/1000 < |s.velZoom|) :
    (applyGestureInertia s).velZoom = s.velZoom * (92/100) := by
  unfold applyGestureInertia
  simp only [hA, hB, hC]
  split_ifs <;> simp_all [apply_ite ControlState.velZoom]

lemma inertia_zoom_stop (s : ControlState) (hA : s.isGestureActive = false)
    (hB : s.expandedPhoto = false) (hC : s.isExploded = false)
    (hstop : |s.velZoom| ≤ 1/1000) :
    (applyGestureInertia s).velZoom = s.velZoom ∧
    (applyGestureInertia s).cameraZ = s.cameraZ := by
  unfold applyGestureInertia
  simp only [hA, hB, hC]
  have hz := not_lt.mpr hstop
  split_ifs <;>
    simp_all [apply_ite ControlState.velZoom, apply_ite ControlState.cameraZ]

lemma inertia_iterate_flags (s : ControlState) (k : ℕ) :
    (applyGestureInertia^[k] s).isGestureActive = s.isGestureActive ∧
    (applyGestureInertia^[k] s).expandedPhoto = s.expandedPhoto ∧
    (applyGestureInertia^[k] s).isExploded = s.isExploded := by
  induction k with
  | zero => exact ⟨rfl, rfl, rfl⟩
  | succ n ih =>
    rw [Function.iterate_succ_apply']
    obtain ⟨f1, f2, f3⟩ := inertia_flags (applyGestureInertia^[n] s)
    exact ⟨by rw [f1, ih.1], by rw [f2, ih.2.1], by rw [f3, ih.2.2]⟩

/-- Claim C3 amended: from an inactive state (no active gesture, no expanded
photo, not exploded), after k inertia frames the rotation velocity is
v0 * 0.95^k and the zoom velocity v0 * 0.92^k for as long as the magnitudes
stay strictly above the cutoffs (0.0001 for either rotation axis — the two
axes share one condition — and 0.001 for zoom); once the magnitude is at or
below the cutoff, the velocity and the corresponding rotation / camera values
no longer change on any later inactive frame. -/
theorem c3_inertia_decay (s : ControlState) (hA : s.isGestureActive = false)
    (hB : s.expandedPhoto = false) (hC : s.isExploded = false) :
    (∀ k : ℕ,
      (∀ j < k, 1/10000 < |s.velRotX * (95/100)^j| ∨
                1/10000 < |s.velRotY * (95/100)^j|) →
      (applyGestureInertia^[k] s).velRotX = s.velRotX * (95/100)^k ∧
      (applyGestureInertia^[k] s).velRotY = s.velRotY * (95/100)^k) ∧
    (∀ k : ℕ, (∀ j < k, 1/1000 < |s.velZoom * (92/100)^j|) →
      (applyGestureInertia^[k] s).velZoom = s.velZoom * (92/100)^k) ∧
    (|s.velRotX| ≤ 1/10000 → |s.velRotY| ≤ 1/10000 → ∀ k : ℕ,
      (applyGestureInertia^[k] s).velRotX = s.velRotX ∧
      (applyGestureInertia^[k] s).velRotY = s.velRotY ∧
      (applyGestureInertia^[k] s).rotX = s.rotX ∧
      (applyGestureInertia^[k] s).rotY = s.rotY) ∧
    (|s.velZoom| ≤ 1/1000 → ∀ k : ℕ,
      (applyGestureInertia^[k] s).velZoom = s.velZoom ∧
      (applyGestureInertia^[k] s).cameraZ = s.cameraZ) := by
  refine ⟨?_, ?_, ?_, ?_⟩
  · intro k
    induction k with
    | zero => intro _; simp
    | succ n ih =>
      intro hcond
      obtain ⟨v1, v2⟩ := ih (fun j hj => hcond j (Nat.lt_succ_of_lt hj))
      obtain ⟨f1, f2, f3⟩ := inertia_iterate_flags s n
      rw [Function.iterate_succ_apply']
      obtain ⟨d1, d2⟩ := inertia_rot_decay (applyGestureInertia^[n] s)
        (by rw [f1, hA]) (by rw [f2, hB]) (by rw [f3, hC])
        (by rw [v1, v2]; exact hcond n (Nat.lt_succ_self n))
      constructor
      · rw [d1, v1, pow_succ, mul_assoc]
      · rw [d2, v2, pow_succ, mul_assoc]
  · intro k
    induction k with
    | zero => intro _; simp
    | succ n ih =>
      intro hcond
      have v1 := ih (fun j hj => hcond j (Nat.lt_succ_of_lt hj))
      obtain ⟨f1, f2, f3⟩ := inertia_iterate_flags s n
      rw [Function.iterate_succ_apply']
      have d1 := inertia_zoom_decay (applyGestureInertia^[n] s)
        (by rw [f1, hA]) (by rw [f2, hB]) (by rw [f3, hC])
        (by rw [v1]; exact hcond n (Nat.lt_succ_self n))
      rw [d1, v1, pow_succ, mul_assoc]
  · intro hx hy k
    induction k with
    | zero => exact ⟨rfl, rfl, rfl, rfl⟩
    | succ n ih =>
      obtain ⟨v1, v2, r1, r2⟩ := ih
      obtain ⟨f1, f2, f3⟩ := inertia_iterate_flags s n
      rw [Function.iterate_succ_apply']
      obtain ⟨e1, e2, e3, e4⟩ := inertia_rot_stop (applyGestureInertia^[n] s)
        (by rw [f1, hA]) (by rw [f2, hB]) (by rw [f3, hC])
        (by rw [v1]; exact hx) (by rw [v2]; exact hy)
      exact ⟨by rw [e1, v1], by rw [e2, v2], by rw [e3, r1], by rw [e4, r2]⟩
  · intro hz k
    induction k with
    | zero => exact ⟨rfl, rfl⟩
    | succ n ih =>
      obtain ⟨v1, c1⟩ := ih
      obtain ⟨f1, f2, f3⟩ := inertia_iterate_flags s n
      rw [Function.iterate_succ_apply']
      obtain ⟨e1, e2⟩ := inertia_zoom_stop (applyGestureInertia^[n] s)
        (by rw [f1, hA]) (by rw [f2, hB]) (by rw [f3, hC])
        (by rw [v1]; exact hz)
      exact ⟨by rw [e1, v1], by rw [e2, c1]⟩

/-- A coasting state for the C3 witness: rotation velocity 0.1, zoom
velocity 0.5, inactive. -/
def inertState : ControlState :=
  { initialState with velRotX := 1/10, velRotY := 0, velZoom := 1/2 }

theorem c3_inertia_decay_witness :
    (applyGestureInertia^[2] inertState).velRotX
        = inertState.velRotX * (95/100)^2 ∧
    (applyGestureInertia^[2] inertState).velZoom
        = inertState.velZoom * (92/100)^2 :=
  ⟨((c3_inertia_decay inertState rfl rfl rfl).1 2 (by decide)).1,
   (c3_inertia_decay inertState rfl rfl rfl).2.1 2 (by decide)⟩

/-- A three-component vector as used by the particle physics engine
(THREE.Vector3), over the reals: the engine divides by a Euclidean norm, so
exact rationals do not suffice here. -/
structure Vec3 where
  x : ℝ
  y : ℝ
  z : ℝ

/-- THREE.Vector3.length: the Euclidean norm. -/
noncomputable def Vec3.length (v : Vec3) : ℝ :=
  Real.sqrt (v.x^2 + v.y^2 + v.z^2)

/-- THREE.Vector3.multiplyScalar. -/
def Vec3.smul (c : ℝ) (v : Vec3) : Vec3 :=
  ⟨c * v.x, c * v.y, c * v.z⟩

/-- The speed cap of updateParticlePhysics (script.js:378-382): if the speed
exceeds maxSpeed, rescale the velocity vector to magnitude maxSpeed. -/
noncomputable def clampSpeed (maxSpeed : ℝ) (v : Vec3) : Vec3 :=
  if maxSpeed < v.length then Vec3.smul (maxSpeed / v.length) v else v

/-- The per-particle phase parameters (offset, per-axis frequency and
amplitude) drawn at particle creation. -/
structure Phase where
  offset : ℝ
  speedX : ℝ
  speedY : ℝ
  speedZ : ℝ
  amplitudeX : ℝ
  amplitudeY : ℝ
  amplitudeZ : ℝ

/-- One particle step of updateParticlePhysics (script.js:331-391), with the
CONFIG.physics constants inlined: gravity = -0.0003, damping = 0.95,
returnForce = 0.008 (times 2.5 in sphere mode), maxSpeed = 0.015.  `target`
is the entry of the globally selected target set (sphereTargets when
isFistShape, else particleTargets).  Returns (new position, new velocity). -/
noncomputable def updateParticle (isExploded isFistShape : Bool) (time : ℝ)
    (pos vel target : Vec3) (phase : Phase) : Vec3 × Vec3 :=
  let currentForce : ℝ := if isFistShape then (8/1000) * (5/2) else 8/1000
  let vel1 : Vec3 :=
    if isExploded = false then
      let turbMult : ℝ := if isFistShape then 3/10 else 1
      ⟨vel.x + (target.x - pos.x) * currentForce
          + Real.sin (time * phase.speedX + phase.offset)
            * phase.amplitudeX * turbMult,
       vel.y + (target.y - pos.y) * currentForce
          + Real.cos (time * phase.speedY + phase.offset * (13/10))
            * phase.amplitudeY * turbMult,
       vel.z + (target.z - pos.z) * currentForce
          + Real.sin (time * phase.speedZ + phase.offset * (7/10))
            * phase.amplitudeZ * turbMult⟩
    else
      ⟨vel.x, vel.y + (-3/10000), vel.z⟩
  let vel2 := Vec3.smul (95/100) vel1
  let vel3 := clampSpeed (15/1000) vel2
  (⟨pos.x + vel3.x, pos.y + vel3.y, pos.z + vel3.z⟩, vel3)

lemma Vec3.length_nonneg (v : Vec3) : 0 ≤ v.length :=
  Real.sqrt_nonneg _

lemma Vec3.length_smul (c : ℝ) (v : Vec3) :
    (Vec3.smul c v).length = |c| * v.length := by
  unfold Vec3.length Vec3.smul
  have hsq : (c * v.x)^2 + (c * v.y)^2 + (c * v.z)^2
      = c^2 * (v.x^2 + v.y^2 + v.z^2) := by ring
  rw [hsq, Real.sqrt_mul (sq_nonneg c), Real.sqrt_sq_eq_abs]

lemma clampSpeed_length_le (c : ℝ) (hc : 0 < c) (v : Vec3) :
    (clampSpeed c v).length ≤ c := by
  unfold clampSpeed
  split
  case isTrue h =>
    have hv : 0 < v.length := lt_trans hc h
    rw [Vec3.length_smul, abs_of_nonneg (le_of_lt (div_pos hc hv)),
      div_mul_cancel₀ c (ne_of_gt hv)]
  case isFalse h => exact le_of_not_lt h

/-- Claim C4: in every mode (formation, sphere, exploded), the velocity
produced by one particle step — after damping and the speed clamp, i.e. the
velocity that is added to the position — has magnitude at most the configured
maxSpeed 0.015: spring forces can never make the speed blow up. -/
theorem c4_speed_cap (isExploded isFistShape : Bool) (time : ℝ)
    (pos vel target : Vec3) (phase : Phase) :
    ((updateParticle isExploded isFistShape time pos vel target phase).2).length
      ≤ 15/1000 :=
  clampSpeed_length_le (15/1000) (by norm_num) _

/-- Claim C5: in exploded mode, a particle step adds the negative gravity
constant -0.0003 to velocity.y only, then applies the 0.95 damping and the
speed clamp, and adds the clamped velocity to the position; it applies no
spring force and no turbulence — the result does not depend on the target,
the phase parameters, or the time. -/
theorem c5_exploded_update (isFistShape : Bool) (time time' : ℝ)
    (pos vel target target' : Vec3) (phase phase' : Phase) :
    updateParticle true isFistShape time pos vel target phase
      = (let v3 := clampSpeed (15/1000)
             (Vec3.smul (95/100) ⟨vel.x, vel.y + (-3/10000), vel.z⟩)
         (⟨pos.x + v3.x, pos.y + v3.y, pos.z + v3.z⟩, v3)) ∧
    updateParticle true isFistShape time pos vel target phase
      = updateParticle true isFistShape time' pos vel target' phase' :=
  ⟨rfl, rfl⟩

/-!
Safety model for degenerate landmark frames (claim C8).  Here a frame is an
arbitrary-length list.  In JavaScript, indexing past the end of the array
yields undefined without error, and the crash (TypeError) happens at the
first property access (.x or .y) on that undefined value.  Each function
below returns none exactly when the source would perform such an
out-of-range access; which missing index is hit first does not affect that
outcome, so the lookups are grouped rather than interleaved with the
arithmetic.
-/

/-- getPalmCenter (script.js:1504-1513) with access checking: reads .x and .y
of landmarks 0 and 9. -/
def getPalmCenterChecked (lm : List Landmark) : Option (ℚ × ℚ) :=
  match lm[0]?, lm[9]? with
  | some wrist, some middleMCP =>
    some ((wrist.x + middleMCP.x) / 2, (wrist.y + middleMCP.y) / 2)
  | _, _ => none

/-- getHandSize (script.js:1516-1545) with access checking: reads fields of
landmarks 0, 4, 12, 20 and 9, and returns the three squared distances it
averages (the source averages their square roots; squared values carry the
same access pattern, which is all this safety model needs).  landmarks[8] is
fetched by the source but its fields are never read, so it imposes no access
requirement. -/
def getHandSizeChecked (lm : List Landmark) : Option (ℚ × ℚ × ℚ) :=
  match lm[0]?, lm[4]?, lm[12]?, lm[20]?, lm[9]? with
  | some wrist, some thumbTip, some middleTip, some pinkyTip, some middleMCP =>
    some (distSq wrist middleTip, distSq thumbTip pinkyTip,
          distSq wrist middleMCP)
  | _, _, _, _, _ => none

/-- recognizeGesture (script.js:1547-1591) with access checking: reads .y of
landmarks 8, 6, 12, 10, 16, 14, 20, 18 (the four isExtended tests) and .x/.y
of landmarks 8 and 4 (the pinch distance). -/
def recognizeGestureChecked (lm : List Landmark) : Option Gesture :=
  match lm[4]?, lm[8]?, lm[6]?, lm[12]?, lm[10]?, lm[16]?, lm[14]?,
        lm[20]?, lm[18]? with
  | some thumbTip, some indexTip, some i6, some i12, some i10, some i16,
      some i14, some i20, some i18 =>
    let indexExtended := decide (indexTip.y < i6.y)
    let middleExtended := decide (i12.y < i10.y)
    let ringExtended := decide (i16.y < i14.y)
    let pinkyExtended := decide (i20.y < i18.y)
    some (if distSq indexTip thumbTip < (6/100)^2 then Gesture.PINCH
      else if !indexExtended && !middleExtended && !ringExtended && !pinkyExtended then
        Gesture.FIST
      else if indexExtended && middleExtended && ringExtended && pinkyExtended then
        Gesture.OPEN_PALM
      else if indexExtended && middleExtended && !ringExtended && !pinkyExtended then
        Gesture.V_SIGN
      else if indexExtended && !middleExtended && !ringExtended && !pinkyExtended then
        Gesture.POINT
      else Gesture.NONE)
  | _, _, _, _, _, _, _, _, _ => none

/-- The landmark accesses handleGestures (script.js:1424-1473) performs on
its frame, in source order: getPalmCenter, then getHandSize, then
recognizeGesture (processContinuousGesture never indexes the frame).  none
means the frame triggered an out-of-range access. -/
def handleGesturesChecked (lm : List Landmark) : Option Gesture :=
  match getPalmCenterChecked lm, getHandSizeChecked lm with
  | some _, some _ => recognizeGestureChecked lm
  | _, _ => none

/-- The observable outcome of one onResults callback with respect to the
gesture pipeline. -/
inductive PipelineOutcome where
  | noHand
  | ranGesture (g : Gesture)
  | crash
  deriving DecidableEq

/-- onResults (script.js:1391-1418): an empty multiHandLandmarks list takes
the no-hand branch; otherwise handleGestures runs on the first hand with no
check of the landmark count, crashing if it indexes out of range. -/
def onResultsOutcome (hands : List (List Landmark)) : PipelineOutcome :=
  match hands with
  | [] => PipelineOutcome.noHand
  | lm :: _ =>
    match handleGesturesChecked lm with
    | some g => PipelineOutcome.ranGesture g
    | none => PipelineOutcome.crash

/-- A 20-point frame (one landmark short). -/
def shortFrame : List Landmark := List.replicate 20 ⟨1/2, 1/2, 0⟩

/-- Claim C8 counterexample: a detected hand whose frame has only 20 points
is not treated as "no hand": handleGestures runs and performs an
out-of-range landmark access (outcome crash, not noHand). -/
theorem c8_counterexample :
    shortFrame.length < 21 ∧
    onResultsOutcome [shortFrame] = PipelineOutcome.crash ∧
    PipelineOutcome.crash ≠ PipelineOutcome.noHand := by
  decide

/-- Claim C8 amended: only an empty hand list short-circuits to the no-hand
behavior; a non-empty hand list whose first frame has fewer than 21 points is
handed to the gesture pipeline, which performs an out-of-range landmark
access (landmark 20 is read by getHandSize and recognizeGesture) instead of
behaving as if no hand were detected. -/
theorem c8_short_frame_crashes (lm : List Landmark)
    (rest : List (List Landmark)) (h : lm.length < 21) :
    onResultsOutcome (lm :: rest) = PipelineOutcome.crash ∧
    onResultsOutcome [] = PipelineOutcome.noHand := by
  have h20 : lm[20]? = none := List.getElem?_eq_none (by omega)
  have hs : getHandSizeChecked lm = none := by
    unfold getHandSizeChecked
    split <;> simp_all
  have hh : handleGesturesChecked lm = none := by
    unfold handleGesturesChecked
    split <;> simp_all
  exact ⟨by simp [onResultsOutcome, hh], rfl⟩

theorem c8_short_frame_crashes_witness :
    shortFrame.length < 21 ∧
    onResultsOutcome [shortFrame] = PipelineOutcome.crash :=
  ⟨by decide, (c8_short_frame_crashes shortFrame [] (by decide)).1⟩

end ChristmasMagic
